import Mathlib

/-!
Verification of the `container_blog` toy container runtime.

Each Rust function that the claims touch is embedded as an executable Lean
definition, translated from the source files `cgroups.rs`, `net.rs`, `fs.rs`,
`container.rs` and `main.rs`.  Side-effecting code is embedded as a trace
semantics: the environment records which fallible system steps succeed, and
the embedding returns the overall result together with the list of observable
effects in program order.
-/

namespace ContainerBlog

/-! ### cgroups.rs: `validate_memory_limit`

The Rust validator is `Regex::new(r"^(?i:(max|\d+|\d+)(?:k|m|g|ki|mi|gi))$")`
applied with `is_match`.  The regular language is
`(max | digits) · (k|m|g|ki|mi|gi)`, case-insensitively — note the unit
suffix is *not* optional in this regex, and the digit string may be `0…`.
`\d` is embedded as an ASCII digit: every input the claims mention is ASCII,
and a multi-byte character is neither a Unicode digit nor an ASCII one, so
the verdicts agree. -/

/-- The six unit suffixes of the regex, lower-cased. -/
def memUnits : List (List Char) := [['k'], ['m'], ['g'], ['k','i'], ['m','i'], ['g','i']]

/-- Whether `cs` ends with the list `u`. -/
def endsWithList (cs u : List Char) : Bool :=
  u.length ≤ cs.length && cs.drop (cs.length - u.length) == u

/-- The body (what precedes the unit) must be `max` or a nonempty digit string. -/
def memBodyOk (body : List Char) : Bool :=
  body == ['m','a','x'] || (!body.isEmpty && body.all Char.isDigit)

/-- Membership in the language of the Rust regex
`^(?i:(max|\d+|\d+)(?:k|m|g|ki|mi|gi))$`. -/
def memRegexMatch (cs : List Char) : Bool :=
  memUnits.any fun u =>
    endsWithList cs u && memBodyOk (cs.take (cs.length - u.length))

/-- Embedding of `validate_memory_limit` (cgroups.rs:175-184); `true` means
`Ok(())`, `false` means the `bail!`.  Case-insensitivity of `(?i:…)` is
embedded by lower-casing the input first. -/
def validate_memory_limit (limit : String) : Bool :=
  memRegexMatch (limit.data.map Char.toLower)

/-! ### cgroups.rs: `parse_cpu_quota`

The Rust function parses the string as `f64`, bails when the value
`<= 0.0`, multiplies by `100000.0` and casts `as i64` (a saturating cast,
`NaN ↦ 0`), and formats `"{quota} {PERIOD}"` where `PERIOD : f64 = 100000.0`
displays as `"100000"`.

The `f64` value is embedded exactly: a parsed finite decimal is kept as a
sign together with numerator/denominator naturals (`den` a power of ten).
Every string the claims mention is a short decimal that `f64` represents
exactly, so exact rational truncation agrees with the `f64` computation on
all of them.  Exponent forms (`1e3`) are not needed by any claim input and
are not modelled. -/

/-- The possible results of `str::parse::<f64>()` on the inputs we model:
`NaN`, signed infinity, or an exactly-represented finite decimal `±num/den`. -/
inductive FVal where
  | nan : FVal
  | inf : Bool → FVal
  | fin : Bool → Nat → Nat → FVal
  deriving DecidableEq, Repr

/-- Digit list to natural number, most significant first. -/
def digitsToNat (cs : List Char) : Nat :=
  cs.foldl (fun a c => a * 10 + (c.toNat - 48)) 0

/-- Parse the unsigned significand `digits`, `digits.digits`, `digits.` or
`.digits` into `(numerator, denominator)`; `none` on anything else. -/
def parseSignificand (cs : List Char) : Option (Nat × Nat) :=
  let intPart := cs.takeWhile Char.isDigit
  let rest := cs.dropWhile Char.isDigit
  match rest with
  | [] => if intPart.isEmpty then none else some (digitsToNat intPart, 1)
  | '.' :: frac =>
      if frac.all Char.isDigit && !(intPart.isEmpty && frac.isEmpty) then
        some (digitsToNat (intPart ++ frac), 10 ^ frac.length)
      else none
  | _ => none

/-- Embedding of `str::parse::<f64>()`: optional sign, then (case-insensitive)
`inf`/`infinity`/`nan` or a decimal significand. -/
def parseF64 (s : String) : Option FVal :=
  let signSplit : Bool × List Char :=
    match s.data with
    | '+' :: r => (false, r)
    | '-' :: r => (true, r)
    | r => (false, r)
  let neg := signSplit.1
  let body := signSplit.2
  let low := body.map Char.toLower
  if low == "inf".data || low == "infinity".data then some (FVal.inf neg)
  else if low == "nan".data then some FVal.nan
  else
    match parseSignificand body with
    | some (n, d) => some (FVal.fin neg n d)
    | none => none

def I64_MAX : Int := 9223372036854775807
def I64_MIN : Int := -9223372036854775808

/-- Rust's saturating float-to-integer cast `as i64`: `NaN ↦ 0`, infinities
saturate, finite values truncate toward zero and saturate. -/
def castF64toI64 : FVal → Int
  | FVal.nan => 0
  | FVal.inf neg => if neg then I64_MIN else I64_MAX
  | FVal.fin neg n d =>
      let t : Int := (n / d : Nat)
      let ti : Int := if neg then -t else t
      max I64_MIN (min I64_MAX ti)

/-- The `f64` comparison `v <= 0.0` (false for `NaN`). -/
def fleZero : FVal → Bool
  | FVal.nan => false
  | FVal.inf neg => neg
  | FVal.fin neg n _ => neg || n == 0

/-- Multiplication of the parsed value by the positive constant `100000.0`;
exact on the finite decimals we model, and `NaN`/`±inf` are absorbing. -/
def fmulPeriod : FVal → FVal
  | FVal.nan => FVal.nan
  | FVal.inf neg => FVal.inf neg
  | FVal.fin neg n d => FVal.fin neg (n * 100000) d

/-- Embedding of `parse_cpu_quota` (cgroups.rs:148-162).  `none` is the error
case; `some s` is `Ok(s)` with `s` the `"{quota} {PERIOD}"` string
(`PERIOD : f64 = 100000.0` displays as `"100000"`). -/
def parse_cpu_quota (cpu : String) : Option String :=
  match parseF64 cpu with
  | none => none
  | some v =>
      if fleZero v then none
      else some (toString (castF64toI64 (fmulPeriod v)) ++ " 100000")

/-! ### net.rs: the `ip` command runner and `ips_from_cidr`

`ip(args)` spawns `/sbin/ip` with `args` and calls `.status()`.  The only
`?`-error is a spawn failure (via the `context` message); an exit status is
*never inspected*, so a command that runs and exits non-zero still yields
`Ok(())`. -/

/-- The two observable outcomes of `Command::status()`. -/
inductive SpawnOutcome where
  | status : Int → SpawnOutcome
  | spawnFailure : SpawnOutcome
  deriving DecidableEq, Repr

/-- The `format!("Failed to execute ip {:?}", args)` context message. -/
def ipErrorMsg (args : List String) : String :=
  "Failed to execute ip " ++ toString args

/-- Embedding of `ip` (net.rs:13-19): `Except.error` exactly when the spawn
itself failed. -/
def ip (args : List String) : SpawnOutcome → Except String Unit
  | SpawnOutcome.status _ => Except.ok ()
  | SpawnOutcome.spawnFailure => Except.error (ipErrorMsg args)

/-! IPv4 addresses are embedded as naturals below `2^32`.  The `cidr` crate's
`Ipv4Cidr::iter()` enumerates every address of the block in order, starting
at the network (first) address, so `iter().nth(k)` is `base + k` when
`k < 2^(32-len)`. -/

/-- The result of `iter().nth(n)` on an `Ipv4Cidr` with network address `base` and
a mask of `len` bits. -/
def cidrNth (base len n : Nat) : Option Nat :=
  if n < 2 ^ (32 - len) then some (base + n) else none

/-- Embedding of `ips_from_cidr` (net.rs:21-33): `(host_ip, container_ip)` =
addresses at indices 1 and 2 of the block. -/
def ips_from_cidr (base len : Nat) : Option (Nat × Nat) :=
  match cidrNth base len 1, cidrNth base len 2 with
  | some h, some c => some (h, c)
  | _, _ => none

/-- Dotted-quad display of an address. -/
def formatIpv4 (n : Nat) : String :=
  toString (n / 16777216 % 256) ++ "." ++ toString (n / 65536 % 256) ++ "." ++
    toString (n / 256 % 256) ++ "." ++ toString (n % 256)

/-- The default CIDR `192.168.200.0/24` built in `run_in_container`
(container.rs:169-170). -/
def defaultCidrBase : Nat := 192 * 16777216 + 168 * 65536 + 200 * 256

/-- The `"{}/24"` argument that `bring_up_container_net` (net.rs:109-121)
passes to `ip addr add … dev veth0c0` for the container side. -/
def containerVethAddrArg (base len : Nat) : Option String :=
  match ips_from_cidr base len with
  | some hc => some (formatIpv4 hc.2 ++ "/24")
  | none => none

/-! ### fs.rs: layer discovery and overlay lowerdir stack -/

/-- A directory entry as `read_dir` reports it: a name and whether it is a
directory. -/
structure DirEntry where
  name : String
  isDir : Bool
  deriving DecidableEq, Repr

/-- The name test of `find_lower_layers` (fs.rs:66-68): byte length 7,
starts with `layer`, and characters 5 and 6 are ASCII digits.  (Char count
stands in for byte count: any name with a multi-byte character fails both
tests.) -/
def isLayerName (name : String) : Bool :=
  name.data.length == 7 && name.data.take 5 == "layer".data &&
    ((name.data.drop 5).take 2).all Char.isDigit

/-- Character-list lexicographic order; on UTF-8 strings this agrees with
Rust's byte-wise `String` ordering used by `names.sort()`. -/
def leChars : List Char → List Char → Bool
  | [], _ => true
  | _ :: _, [] => false
  | a :: as, b :: bs => if a < b then true else if b < a then false else leChars as bs

def strLe (a b : String) : Bool := leChars a.data b.data

def insertSorted (x : String) : List String → List String
  | [] => [x]
  | y :: ys => if strLe x y then x :: y :: ys else y :: insertSorted x ys

/-- A sort of a list of strings under `strLe`, standing in for `Vec::sort`. -/
def sortStrings : List String → List String
  | [] => []
  | x :: xs => insertSorted x (sortStrings xs)

/-- Rust's `Vec<String>::join(":")`. -/
def joinColon : List String → String
  | [] => ""
  | [x] => x
  | x :: y :: ys => x ++ ":" ++ joinColon (y :: ys)

/-- Embedding of `find_lower_layers` (fs.rs:54-77) over the entry list the
root directory yields: keep directories named `layer` + two digits, format
as `{root}/{name}`, sort, join with `:`. -/
def find_lower_layers (root : String) (entries : List DirEntry) : String :=
  let names := (entries.filter fun e => e.isDir && isLayerName e.name).map
    fun e => root ++ "/" ++ e.name
  joinColon (sortStrings names)

/-- Embedding of `get_overlay_dirs` (fs.rs:21-40):
`(lower, upper, workdir, mount)` strings. -/
def get_overlay_dirs (root : String) (entries : List DirEntry) :
    String × String × String × String :=
  let lower_dirs := find_lower_layers root entries
  let lower :=
    if lower_dirs = "" then root ++ "/rootfs"
    else root ++ "/rootfs:" ++ lower_dirs
  (lower, root ++ "/upper", root ++ "/workdir", root ++ "/mount")

/-! ### container.rs: trace semantics of `run_in_container`

`run_in_container` is straight-line code whose fallible steps are system
calls.  The environment `Env` fixes the outcome of each; the embedding
returns `(ok, events)` — whether the function returned `Ok(())`, together
with the observable effects in program order.  The RAII `Drop` of `Cgroup`
(cgroups.rs:131-139) fires at every exit point where a `Cgroup` value is
live (including inside a failing `Cgroup::new`, whose local struct is built
before the fallible work). -/

/-- Observable effects of a launch. -/
inductive Event where
  | cloneChild
  | writeProcFile : String → Event
  | recreateOverlayDirs
  | createBridge
  | moveVethToChild
  | createCgroupDir
  | addProcessToCgroup
  | writeReleaseByte
  | deleteBridge
  | dropCgroup
  deriving DecidableEq, Repr

/-- The `WaitStatus` the parent obtains for the cloned child. -/
inductive ChildStatus where
  | exited : Int → ChildStatus
  | signaled : Nat → ChildStatus
  | other : ChildStatus
  deriving DecidableEq, Repr

/-- Which fallible system steps of a launch succeed, plus how the child
terminates. -/
structure Env where
  pipeOk : Bool
  cloneOk : Bool
  closeReadOk : Bool
  uidMapOk : Bool
  setgroupsOk : Bool
  gidMapOk : Bool
  overlayOk : Bool
  netSetupOk : Bool
  moveOk : Bool
  cgroupBaseOk : Bool
  memWriteOk : Bool
  cpuWriteOk : Bool
  addProcOk : Bool
  releaseOk : Bool
  closeWriteOk : Bool
  cleanupSpawnOk : Bool
  childStatus : ChildStatus
  deriving DecidableEq, Repr

/-- The all-successful environment with a cleanly exiting child. -/
@[reducible] def envAllOk : Env :=
  ⟨true, true, true, true, true, true, true, true, true, true, true, true,
   true, true, true, true, ChildStatus.exited 0⟩

/-- Embedding of `Cgroup::new` (cgroups.rs:23-55).  The struct is built
first, so every failing `?` inside drops it (removing the directories);
`ensure_base_cgroup` creates the leaf directory, then the memory limit is
validated and written, then the CPU quota parsed and written. -/
def cgroup_new (env : Env) (cpu mem : Option String) : Bool × List Event :=
  if !env.cgroupBaseOk then (false, [Event.dropCgroup])
  else
    let memOk : Bool :=
      match mem with
      | none => true
      | some m => validate_memory_limit m && env.memWriteOk
    let cpuOk : Bool :=
      match cpu with
      | none => true
      | some c => (parse_cpu_quota c).isSome && env.cpuWriteOk
    if memOk && cpuOk then (true, [Event.createCgroupDir])
    else (false, [Event.createCgroupDir, Event.dropCgroup])

/-- The `uid == 0` block of `run_in_container` (container.rs:231-240):
overlay scratch dirs, host network, veth move, cgroup.  Returns
`(ok, events, cgroupAlive)`. -/
def root_setup (env : Env) (cpu mem : Option String) : Bool × List Event × Bool :=
  if !env.overlayOk then (false, [], false)
  else if !env.netSetupOk then (false, [Event.recreateOverlayDirs], false)
  else if !env.moveOk then
    (false, [Event.recreateOverlayDirs, Event.createBridge], false)
  else
    let pre := [Event.recreateOverlayDirs, Event.createBridge, Event.moveVethToChild]
    let cg := cgroup_new env cpu mem
    if !cg.1 then (false, pre ++ cg.2, false)
    else if !env.addProcOk then
      (false, pre ++ cg.2 ++ [Event.addProcessToCgroup, Event.dropCgroup], false)
    else (true, pre ++ cg.2 ++ [Event.addProcessToCgroup], true)

/-- Embedding of `wait_for_child` (container.rs:255-265). -/
def wait_for_child : ChildStatus → Int
  | ChildStatus.exited code => code
  | ChildStatus.signaled sig => 128 + (sig : Int)
  | ChildStatus.other => 1

/-- The four events of every launch that reaches the resource block:
clone, then the three `/proc/<pid>` writes (container.rs:181-225). -/
def procEvents : List Event :=
  [Event.cloneChild, Event.writeProcFile "uid_map", Event.writeProcFile "setgroups",
   Event.writeProcFile "gid_map"]

/-- The tail of `run_in_container` after the `/proc` writes: release byte,
pipe close, the discarded `wait_for_child`, and the `uid == 0` bridge
cleanup; `r` is the outcome of the resource block.  The RAII drop of the
live cgroup fires at every exit. -/
def release_and_wait (env : Env) (uid : Nat) (r : Bool × List Event × Bool) :
    Bool × List Event :=
  if !r.1 then (false, procEvents ++ r.2.1)
  else
    let dropTail : List Event := if r.2.2 then [Event.dropCgroup] else []
    if !env.releaseOk then (false, procEvents ++ r.2.1 ++ dropTail)
    else if !env.closeWriteOk then
      (false, procEvents ++ r.2.1 ++ [Event.writeReleaseByte] ++ dropTail)
    else if uid = 0 then
      if !env.cleanupSpawnOk then
        (false, procEvents ++ r.2.1 ++ [Event.writeReleaseByte] ++ dropTail)
      else
        (true, procEvents ++ r.2.1 ++ [Event.writeReleaseByte] ++
          [Event.deleteBridge] ++ dropTail)
    else (true, procEvents ++ r.2.1 ++ [Event.writeReleaseByte] ++ dropTail)

/-- Embedding of `run_in_container` (container.rs:152-253) as a trace
semantics.  Note line 246: `let _ = wait_for_child(child_pid);` — the
child's status is collected and *discarded*, so it influences neither the
result nor the trace. -/
def run_in_container (env : Env) (uid : Nat) (cpu mem : Option String) :
    Bool × List Event :=
  if !env.pipeOk then (false, [])
  else if !env.cloneOk then (false, [])
  else if !env.closeReadOk then (false, [Event.cloneChild])
  else if !env.uidMapOk then (false, [Event.cloneChild])
  else if !env.setgroupsOk then (false, [Event.cloneChild, Event.writeProcFile "uid_map"])
  else if !env.gidMapOk then
    (false, [Event.cloneChild, Event.writeProcFile "uid_map",
      Event.writeProcFile "setgroups"])
  else
    release_and_wait env uid
      (if uid = 0 then root_setup env cpu mem else (true, [], false))

/-- Embedding of `main` (main.rs:33-42): error from `run_in_container` gives
`ExitCode::FAILURE` (1), otherwise `ExitCode::SUCCESS` (0). -/
def launcher_exit_code (env : Env) (uid : Nat) (cpu mem : Option String) : Nat :=
  if (run_in_container env uid cpu mem).1 then 0 else 1

/-! ### container.rs: the clone closure's sync-pipe handling
(container.rs:183-213). -/

/-- Outcome of the blocking `read` on the sync pipe: `Ok(n)` bytes (0 on
end-of-file) or an error. -/
inductive ReadResult where
  | bytesRead : Nat → ReadResult
  | readError : ReadResult
  deriving DecidableEq, Repr

/-- What the cloned child does next. -/
inductive ChildAct where
  | exitBeforeSetup : Nat → ChildAct
  | runSetupAndExec : ChildAct
  deriving DecidableEq, Repr

/-- Embedding of the clone closure: close the write end (exit 1 on failure),
read the sync pipe (exit 1 only on a read *error*), then run `child(…)` —
any `Ok(n)` from `read`, including 0 bytes, releases the child. -/
def clone_closure (closeOk : Bool) (r : ReadResult) : ChildAct :=
  if !closeOk then ChildAct.exitBeforeSetup 1
  else
    match r with
    | ReadResult.readError => ChildAct.exitBeforeSetup 1
    | ReadResult.bytesRead _ => ChildAct.runSetupAndExec

/-- Projection used to state the sync-protocol ordering: keeps only the
clone, the `/proc` writes and the release byte. -/
def isSyncEvent : Event → Bool
  | Event.cloneChild => true
  | Event.writeProcFile _ => true
  | Event.writeReleaseByte => true
  | _ => false

/-- The directory listing of the layer-discovery claim: `rootfs`, `layer00`,
`layer02`, `layer10`, `layerAA`, `layer1`, all directories. -/
def layerEntries : List DirEntry :=
  [⟨"rootfs", true⟩, ⟨"layer00", true⟩, ⟨"layer02", true⟩, ⟨"layer10", true⟩,
   ⟨"layerAA", true⟩, ⟨"layer1", true⟩]

/-! ## Theorems -/

theorem str_data_append (a b : String) : (a ++ b).data = a.data ++ b.data := rfl

theorem str_eq_of_data (a b : String) (h : a.data = b.data) : a = b := by
  cases a; cases b; exact congrArg String.mk h

/-- C2: the launcher's own unit tests (cgroups.rs:205-247) assert
`validate_memory_limit("max")` and `("1024")` are `Ok` and `("0M")` is
`Err`; the regex `^(?i:(max|\d+|\d+)(?:k|m|g|ki|mi|gi))$` makes the unit
suffix mandatory and accepts a zero body, so the code gives the opposite
verdicts on those three while agreeing on the rest of the listed inputs. -/
theorem validate_memory_limit_contradicts_tests :
    validate_memory_limit "max" = false ∧
    validate_memory_limit "1024" = false ∧
    validate_memory_limit "0M" = true ∧
    validate_memory_limit "1K" = true ∧
    validate_memory_limit "10M" = true ∧
    validate_memory_limit "2G" = true ∧
    validate_memory_limit "1Ki" = true ∧
    validate_memory_limit "10Mi" = true ∧
    validate_memory_limit "2Gi" = true ∧
    validate_memory_limit "5m" = true ∧
    validate_memory_limit "3gi" = true ∧
    validate_memory_limit "" = false ∧
    validate_memory_limit "K100" = false ∧
    validate_memory_limit "K" = false ∧
    validate_memory_limit "0" = false ∧
    validate_memory_limit "100KB" = false ∧
    validate_memory_limit "1TB" = false ∧
    validate_memory_limit "1TiB" = false ∧
    validate_memory_limit "1.5G" = false ∧
    validate_memory_limit "abc" = false := by
  decide

/-- C4 counterexample: a spawned command that exits with status 1 (the
behaviour of running `false`) still yields `Ok(())` — the runner never
inspects the exit status, so no `Err` containing "non-zero" exists. -/
theorem ip_nonzero_exit_yields_ok :
    ip ["link", "delete", "br0"] (SpawnOutcome.status 1) = Except.ok () := rfl

/-- C4 amended: the runner returns `Ok(())` whenever the command could be
spawned, whatever its exit status, and `Err` (the spawn-context message)
exactly when spawning failed. -/
theorem ip_err_iff_spawn_failure :
    ∀ (args : List String) (code : Int),
      ip args (SpawnOutcome.status code) = Except.ok () ∧
      ip args SpawnOutcome.spawnFailure = Except.error (ipErrorMsg args) :=
  fun _ _ => ⟨rfl, rfl⟩

/-- C5 counterexample: `"inf"` and `"NaN"` parse as `f64` values that are
not `<= 0.0`, so `parse_cpu_quota` accepts them instead of erroring. -/
theorem parse_cpu_quota_accepts_nonfinite :
    (parse_cpu_quota "inf").isSome = true ∧ (parse_cpu_quota "NaN").isSome = true := by
  decide

/-- C5 amended: the four quoted mappings hold and `"invalid"`, `"0"`,
`"-0.5"` are rejected, but the non-finite inputs are not: `"inf"` saturates
the `as i64` cast to `i64::MAX` and `"NaN"` casts to 0. -/
theorem parse_cpu_quota_spec :
    parse_cpu_quota "0.5" = some "50000 100000" ∧
    parse_cpu_quota "1.0" = some "100000 100000" ∧
    parse_cpu_quota "0.25" = some "25000 100000" ∧
    parse_cpu_quota "2.0" = some "200000 100000" ∧
    parse_cpu_quota "invalid" = none ∧
    parse_cpu_quota "0" = none ∧
    parse_cpu_quota "-0.5" = none ∧
    parse_cpu_quota "inf" = some "9223372036854775807 100000" ∧
    parse_cpu_quota "NaN" = some "0 100000" := by
  decide

/-- C1: the child's wait status never reaches the launcher's exit code.
`run_in_container` is insensitive to the child's status (it discards
`wait_for_child`'s result, container.rs:246), and on a launch whose setup
succeeds the launcher exits 0 even though the child exited 7 (or was killed
by signal 9, where `wait_for_child` itself computes 137). -/
theorem launcher_exit_code_ignores_child_status :
    (∀ (env : Env) (uid : Nat) (cpu mem : Option String) (s : ChildStatus),
      run_in_container { env with childStatus := s } uid cpu mem =
        run_in_container env uid cpu mem) ∧
    launcher_exit_code { envAllOk with childStatus := ChildStatus.exited 7 }
      1000 none none = 0 ∧
    wait_for_child (ChildStatus.exited 7) = 7 ∧
    launcher_exit_code { envAllOk with childStatus := ChildStatus.signaled 9 }
      0 none none = 0 ∧
    wait_for_child (ChildStatus.signaled 9) = 137 := by
  refine ⟨fun env uid cpu mem s => ?_, by decide, by decide, by decide, by decide⟩
  cases env; rfl

/-- C10: with the write end closed by the child itself, an `Ok(n)` from the
blocking read — including the 0-byte end-of-file that a dead parent causes —
releases the child into the same setup-and-exec path as the release byte,
and the child exits 1 before any setup exactly when the read errors. -/
theorem clone_closure_eof_releases :
    clone_closure true (ReadResult.bytesRead 0) = ChildAct.runSetupAndExec ∧
    (∀ n : Nat, clone_closure true (ReadResult.bytesRead n) =
      clone_closure true (ReadResult.bytesRead 1)) ∧
    (∀ r : ReadResult, clone_closure true r = ChildAct.exitBeforeSetup 1 ↔
      r = ReadResult.readError) := by
  refine ⟨rfl, fun n => rfl, fun r => ?_⟩
  cases r <;> simp [clone_closure]

theorem leChars_append (s a b : List Char) : leChars (s ++ a) (s ++ b) = leChars a b := by
  induction s with
  | nil => rfl
  | cons c cs ih => simp [leChars, ih]

theorem strLe_append (r a b : String) : strLe (r ++ a) (r ++ b) = strLe a b := by
  simp only [strLe, str_data_append, leChars_append]

/-- C6: on the listing `rootfs, layer00, layer02, layer10, layerAA, layer1`
the discovered lower layers are exactly
`<root>/layer00:<root>/layer02:<root>/layer10` (two-digit names only,
sorted, colon-joined), and the overlay `lowerdir` string lists
`<root>/rootfs` first. -/
theorem find_lower_layers_spec (root : String) :
    find_lower_layers root layerEntries =
      root ++ "/layer00" ++ ":" ++ root ++ "/layer02" ++ ":" ++ root ++ "/layer10" ∧
    (get_overlay_dirs root layerEntries).1 =
      root ++ "/rootfs" ++ ":" ++ root ++ "/layer00" ++ ":" ++ root ++ "/layer02" ++
        ":" ++ root ++ "/layer10" := by
  have hf : layerEntries.filter (fun e => e.isDir && isLayerName e.name) =
      [⟨"layer00", true⟩, ⟨"layer02", true⟩, ⟨"layer10", true⟩] := by decide
  have hab : strLe (root ++ "/" ++ "layer00") (root ++ "/" ++ "layer02") = true := by
    rw [strLe_append]; decide
  have hbc : strLe (root ++ "/" ++ "layer02") (root ++ "/" ++ "layer10") = true := by
    rw [strLe_append]; decide
  have h1 : find_lower_layers root layerEntries =
      root ++ "/" ++ "layer00" ++ ":" ++ (root ++ "/" ++ "layer02" ++ ":" ++
        (root ++ "/" ++ "layer10")) := by
    simp only [find_lower_layers, hf, List.map_cons, List.map_nil, sortStrings,
      insertSorted, hab, hbc, if_true, joinColon]
  have hmain : root ++ "/" ++ "layer00" ++ ":" ++ (root ++ "/" ++ "layer02" ++ ":" ++
      (root ++ "/" ++ "layer10")) =
      root ++ "/layer00" ++ ":" ++ root ++ "/layer02" ++ ":" ++ root ++ "/layer10" := by
    apply str_eq_of_data
    simp only [str_data_append, List.append_assoc,
      show ("/".data : List Char) = ['/'] from rfl,
      show (":".data : List Char) = [':'] from rfl,
      show ("layer00".data : List Char) = ['l','a','y','e','r','0','0'] from rfl,
      show ("layer02".data : List Char) = ['l','a','y','e','r','0','2'] from rfl,
      show ("layer10".data : List Char) = ['l','a','y','e','r','1','0'] from rfl,
      show ("/layer00".data : List Char) = ['/','l','a','y','e','r','0','0'] from rfl,
      show ("/layer02".data : List Char) = ['/','l','a','y','e','r','0','2'] from rfl,
      show ("/layer10".data : List Char) = ['/','l','a','y','e','r','1','0'] from rfl,
      List.cons_append, List.nil_append]
  refine ⟨h1.trans hmain, ?_⟩
  have hne : find_lower_layers root layerEntries ≠ "" := by
    rw [h1]
    intro h
    have hd := congrArg String.data h
    simp only [str_data_append, List.append_assoc,
      show ("".data : List Char) = [] from rfl, List.append_eq_nil] at hd
    exact absurd hd.2.1 (by decide)
  have h2 : (get_overlay_dirs root layerEntries).1 =
      root ++ "/rootfs:" ++ find_lower_layers root layerEntries := by
    simp only [get_overlay_dirs, if_neg hne]
  rw [h2, h1]
  apply str_eq_of_data
  simp only [str_data_append, List.append_assoc,
    show ("/".data : List Char) = ['/'] from rfl,
    show (":".data : List Char) = [':'] from rfl,
    show ("layer00".data : List Char) = ['l','a','y','e','r','0','0'] from rfl,
    show ("layer02".data : List Char) = ['l','a','y','e','r','0','2'] from rfl,
    show ("layer10".data : List Char) = ['l','a','y','e','r','1','0'] from rfl,
    show ("/layer00".data : List Char) = ['/','l','a','y','e','r','0','0'] from rfl,
    show ("/layer02".data : List Char) = ['/','l','a','y','e','r','0','2'] from rfl,
    show ("/layer10".data : List Char) = ['/','l','a','y','e','r','1','0'] from rfl,
    show ("/rootfs".data : List Char) = ['/','r','o','o','t','f','s'] from rfl,
    show ("/rootfs:".data : List Char) = ['/','r','o','o','t','f','s',':'] from rfl,
    List.cons_append, List.nil_append]

/-- C7 counterexample: for the default CIDR `192.168.200.0/24` the code
derives host `.1` and container `.2` (`iter().nth(1)`/`nth(2)` from the
network address), so the container veth is assigned `192.168.200.2/24`,
not `192.168.200.3/24`. -/
theorem container_addr_is_dot_two :
    ips_from_cidr defaultCidrBase 24 =
      some (defaultCidrBase + 1, defaultCidrBase + 2) ∧
    containerVethAddrArg defaultCidrBase 24 = some "192.168.200.2/24" ∧
    ("192.168.200.2/24" : String) ≠ "192.168.200.3/24" := by
  refine ⟨by decide, by decide, by decide⟩

/-- C7 amended: the bridge gets the block's second address (the *first*
host address, offset 1) and the container its third (offset 2), always with
a `/24` suffix; for the default CIDR the container veth argument is
`192.168.200.2/24`. -/
theorem ips_from_cidr_offsets (base len : Nat) (h : len ≤ 30) :
    ips_from_cidr base len = some (base + 1, base + 2) ∧
    containerVethAddrArg defaultCidrBase 24 = some "192.168.200.2/24" := by
  have h4 : 4 ≤ 2 ^ (32 - len) := by
    have h2 : 2 ≤ 32 - len := by omega
    calc (4 : Nat) = 2 ^ 2 := by norm_num
    _ ≤ 2 ^ (32 - len) := Nat.pow_le_pow_right (by norm_num) h2
  refine ⟨?_, by decide⟩
  simp only [ips_from_cidr, cidrNth, if_pos (by omega : 1 < 2 ^ (32 - len)),
    if_pos (by omega : 2 < 2 ^ (32 - len))]

/-- C7 amended, witness at the default CIDR. -/
theorem ips_from_cidr_offsets_witness :
    24 ≤ 30 ∧ ips_from_cidr defaultCidrBase 24 =
      some (defaultCidrBase + 1, defaultCidrBase + 2) :=
  ⟨by decide, (ips_from_cidr_offsets defaultCidrBase 24 (by decide)).1⟩

/-- C3 counterexample: a launcher failure after the resources are created —
here the release-byte write into the sync pipe fails — returns early through
`?` without reaching `net::cleanup_network()`: the bridge was created and is
never deleted (the cgroup, by contrast, is dropped). -/
theorem bridge_leaked_on_late_failure :
    (run_in_container { envAllOk with releaseOk := false } 0 none none).1 = false ∧
    Event.createBridge ∈ (run_in_container { envAllOk with releaseOk := false } 0 none none).2 ∧
    Event.deleteBridge ∉ (run_in_container { envAllOk with releaseOk := false } 0 none none).2 ∧
    Event.dropCgroup ∈ (run_in_container { envAllOk with releaseOk := false } 0 none none).2 := by
  decide

theorem cgroup_new_sync_filter (env : Env) (cpu mem : Option String) :
    ((cgroup_new env cpu mem).2).filter isSyncEvent = [] := by
  simp only [cgroup_new]
  split_ifs <;> decide

theorem cgroup_new_fail_drop (env : Env) (cpu mem : Option String) :
    (cgroup_new env cpu mem).1 = false →
      Event.dropCgroup ∈ (cgroup_new env cpu mem).2 := by
  simp only [cgroup_new]
  split_ifs <;> intro h <;> first | decide | exact absurd h (by decide)

theorem root_setup_sync_filter (env : Env) (cpu mem : Option String) :
    ((root_setup env cpu mem).2.1).filter isSyncEvent = [] := by
  have hcf := cgroup_new_sync_filter env cpu mem
  rcases hc : cgroup_new env cpu mem with ⟨cok, cevs⟩
  rw [hc] at hcf
  simp only [root_setup, hc]
  split_ifs <;> simp_all [List.filter_append, isSyncEvent]

theorem root_setup_ok_alive (env : Env) (cpu mem : Option String) :
    (root_setup env cpu mem).1 = true → (root_setup env cpu mem).2.2 = true := by
  rcases hc : cgroup_new env cpu mem with ⟨cok, cevs⟩
  simp only [root_setup, hc]
  split_ifs <;> simp

theorem root_setup_fail_drop (env : Env) (cpu mem : Option String) :
    (root_setup env cpu mem).1 = false →
      Event.createCgroupDir ∈ (root_setup env cpu mem).2.1 →
      Event.dropCgroup ∈ (root_setup env cpu mem).2.1 := by
  have hcd := cgroup_new_fail_drop env cpu mem
  rcases hc : cgroup_new env cpu mem with ⟨cok, cevs⟩
  rw [hc] at hcd
  simp only [root_setup, hc]
  split_ifs <;> intro hf h <;> simp_all [List.mem_append]

/-- Any event rejected by a filter that returns `[]` is not in the list. -/
theorem not_mem_of_sync_filter_nil {l : List Event}
    (hl : l.filter isSyncEvent = []) {e : Event} (he : isSyncEvent e = true) :
    e ∉ l := by
  intro hm
  have := List.mem_filter.mpr ⟨hm, he⟩
  rw [hl] at this
  exact absurd this (List.not_mem_nil e)

theorem release_and_wait_drop (env : Env) (uid : Nat) (rok alive : Bool)
    (revs : List Event)
    (hdropf : rok = false → Event.createCgroupDir ∈ revs → Event.dropCgroup ∈ revs)
    (halive : rok = true → alive = true) :
    Event.createCgroupDir ∈ (release_and_wait env uid (rok, revs, alive)).2 →
      Event.dropCgroup ∈ (release_and_wait env uid (rok, revs, alive)).2 := by
  cases rok
  · have he : release_and_wait env uid (false, revs, alive) =
        (false, procEvents ++ revs) := by
      simp [release_and_wait]
    rw [he]
    intro h
    have hm : Event.createCgroupDir ∈ revs := by
      rcases List.mem_append.mp h with h' | h'
      · exact absurd h' (by decide)
      · exact h'
    exact List.mem_append.mpr (Or.inr (hdropf rfl hm))
  · have ha := halive rfl
    subst ha
    intro _
    simp only [release_and_wait]
    split_ifs <;> simp_all [procEvents, List.mem_append]

theorem release_and_wait_bridge (env : Env) (uid : Nat) (rok alive : Bool)
    (revs : List Event)
    (hb : uid ≠ 0 → Event.createBridge ∉ revs) :
    (release_and_wait env uid (rok, revs, alive)).1 = true →
      Event.createBridge ∈ (release_and_wait env uid (rok, revs, alive)).2 →
      Event.deleteBridge ∈ (release_and_wait env uid (rok, revs, alive)).2 := by
  by_cases h0 : uid = 0
  · simp only [release_and_wait, if_pos h0]
    split_ifs <;> intro hres hbr <;>
      first
        | exact hres.elim
        | exact absurd hres Bool.false_ne_true
        | simp [procEvents, List.mem_append]
  · have hbn := hb h0
    simp only [release_and_wait, if_neg h0]
    split_ifs <;> intro hres hbr <;>
      first
        | exact hres.elim
        | exact absurd hres Bool.false_ne_true
        | exact absurd (by simpa [procEvents, List.mem_append] using hbr :
            Event.createBridge ∈ revs) hbn

/-- C3 amended: on every exit path the cgroup directories are removed
whenever they were created (RAII drop), and on every path on which the
launcher returns `Ok` the bridge, once created, is deleted; but a launcher
failure between resource creation and cleanup skips the bridge deletion. -/
theorem cleanup_on_exit_paths (env : Env) (uid : Nat) (cpu mem : Option String) :
    (Event.createCgroupDir ∈ (run_in_container env uid cpu mem).2 →
      Event.dropCgroup ∈ (run_in_container env uid cpu mem).2) ∧
    ((run_in_container env uid cpu mem).1 = true →
      Event.createBridge ∈ (run_in_container env uid cpu mem).2 →
      Event.deleteBridge ∈ (run_in_container env uid cpu mem).2) := by
  simp only [run_in_container]
  split_ifs with h1 h2 h3 h4 h5 h6 h0
  · exact ⟨by simp, by simp⟩
  · exact ⟨by simp, by simp⟩
  · exact ⟨by simp, by simp⟩
  · exact ⟨by simp, by simp⟩
  · exact ⟨by simp, by simp⟩
  · exact ⟨by simp, by simp⟩
  · have halive := root_setup_ok_alive env cpu mem
    have hdropf := root_setup_fail_drop env cpu mem
    rcases hR : root_setup env cpu mem with ⟨rok, revs, alive⟩
    rw [hR] at halive hdropf
    exact ⟨release_and_wait_drop env uid rok alive revs hdropf halive,
      release_and_wait_bridge env uid rok alive revs (fun h => absurd h0 h)⟩
  · refine ⟨?_, ?_⟩ <;>
      · simp only [release_and_wait]
        split_ifs <;> simp [procEvents, List.mem_append]

/-- C3 amended, witness: child failure (`exited 7`), root launch, both
resources created, both cleaned up. -/
theorem cleanup_on_exit_paths_witness :
    Event.createCgroupDir ∈
      (run_in_container { envAllOk with childStatus := ChildStatus.exited 7 } 0 none none).2 ∧
    Event.dropCgroup ∈
      (run_in_container { envAllOk with childStatus := ChildStatus.exited 7 } 0 none none).2 ∧
    (run_in_container { envAllOk with childStatus := ChildStatus.exited 7 } 0 none none).1 = true ∧
    Event.createBridge ∈
      (run_in_container { envAllOk with childStatus := ChildStatus.exited 7 } 0 none none).2 ∧
    Event.deleteBridge ∈
      (run_in_container { envAllOk with childStatus := ChildStatus.exited 7 } 0 none none).2 := by
  refine ⟨by decide,
    (cleanup_on_exit_paths _ 0 none none).1 (by decide),
    by decide, by decide,
    (cleanup_on_exit_paths _ 0 none none).2 (by decide) (by decide)⟩

/-- C8 counterexample: with an invalid memory-limit string the launch (as
root, every system step succeeding) does fail, but only after the child was
cloned, the overlay scratch directories recreated, the bridge created and
the cgroup directory created. -/
theorem side_effects_precede_validation :
    (run_in_container envAllOk 0 none (some "abc")).1 = false ∧
    Event.cloneChild ∈ (run_in_container envAllOk 0 none (some "abc")).2 ∧
    Event.recreateOverlayDirs ∈ (run_in_container envAllOk 0 none (some "abc")).2 ∧
    Event.createBridge ∈ (run_in_container envAllOk 0 none (some "abc")).2 ∧
    Event.createCgroupDir ∈ (run_in_container envAllOk 0 none (some "abc")).2 := by
  decide

/-- C8 amended: the memory/CPU strings are only examined inside
`Cgroup::new`, in the `uid == 0` block: a non-root launch never validates
them (its behaviour is independent of them), and a root launch with an
invalid memory string errors only after clone, overlay recreation, bridge
creation and cgroup-directory creation. -/
theorem validation_is_late (env : Env) (uid : Nat) :
    (∀ cpu cpu' mem mem' : Option String, uid ≠ 0 →
      run_in_container env uid cpu mem = run_in_container env uid cpu' mem') ∧
    (∀ m : String, validate_memory_limit m = false →
      run_in_container envAllOk 0 none (some m) =
        (false, [Event.cloneChild, Event.writeProcFile "uid_map",
          Event.writeProcFile "setgroups", Event.writeProcFile "gid_map",
          Event.recreateOverlayDirs, Event.createBridge, Event.moveVethToChild,
          Event.createCgroupDir, Event.dropCgroup])) := by
  constructor
  · intro cpu cpu' mem mem' h0
    simp only [run_in_container, if_neg h0]
  · intro m hm
    have hcg : cgroup_new envAllOk none (some m) =
        (false, [Event.createCgroupDir, Event.dropCgroup]) := by
      simp [cgroup_new, hm]
    have hrs : root_setup envAllOk none (some m) =
        (false, [Event.recreateOverlayDirs, Event.createBridge,
          Event.moveVethToChild, Event.createCgroupDir, Event.dropCgroup],
          false) := by
      simp [root_setup, hcg]
    simp [run_in_container, release_and_wait, procEvents, hrs]

/-- C8 amended, witness: a non-root launch ignores the strings, and the
invalid memory string `"abc"` produces the late-failing root trace. -/
theorem validation_is_late_witness :
    ((1000 : Nat) ≠ 0 ∧
      run_in_container envAllOk 1000 (some "0.5") (some "1K") =
        run_in_container envAllOk 1000 none none) ∧
    (validate_memory_limit "abc" = false ∧
      run_in_container envAllOk 0 none (some "abc") =
        (false, [Event.cloneChild, Event.writeProcFile "uid_map",
          Event.writeProcFile "setgroups", Event.writeProcFile "gid_map",
          Event.recreateOverlayDirs, Event.createBridge, Event.moveVethToChild,
          Event.createCgroupDir, Event.dropCgroup])) :=
  ⟨⟨by decide, (validation_is_late envAllOk 1000).1 (some "0.5") none (some "1K") none
      (by decide)⟩,
   ⟨by decide, (validation_is_late envAllOk 1000).2 "abc" (by decide)⟩⟩

theorem release_and_wait_sync (env : Env) (uid : Nat) (rok alive : Bool)
    (revs : List Event) (hsf : revs.filter isSyncEvent = [])
    (h : Event.writeReleaseByte ∈ (release_and_wait env uid (rok, revs, alive)).2) :
    ((release_and_wait env uid (rok, revs, alive)).2).filter isSyncEvent =
      procEvents ++ [Event.writeReleaseByte] := by
  have hrel : Event.writeReleaseByte ∉ revs :=
    not_mem_of_sync_filter_nil hsf (by decide)
  cases rok
  · exfalso
    have he : release_and_wait env uid (false, revs, alive) =
        (false, procEvents ++ revs) := by
      simp [release_and_wait]
    rw [he] at h
    apply hrel
    simpa [procEvents, List.mem_append] using h
  · cases alive <;>
      · simp only [release_and_wait] at h ⊢
        split_ifs at h ⊢ <;>
          first
            | (exfalso; apply hrel; simpa [procEvents, List.mem_append] using h)
            | simp [procEvents, List.filter_append, hsf, isSyncEvent]

/-- C9: on every launch in which the release byte is written, the projection
of the trace onto the sync protocol is exactly: clone, then the `/proc`
writes `uid_map`, `setgroups`, `gid_map` each once and in that order, then
the release byte. -/
theorem proc_writes_ordered (env : Env) (uid : Nat) (cpu mem : Option String)
    (h : Event.writeReleaseByte ∈ (run_in_container env uid cpu mem).2) :
    (run_in_container env uid cpu mem).2.filter isSyncEvent =
      [Event.cloneChild, Event.writeProcFile "uid_map",
       Event.writeProcFile "setgroups", Event.writeProcFile "gid_map",
       Event.writeReleaseByte] := by
  simp only [run_in_container] at h ⊢
  split_ifs at h ⊢ with h1 h2 h3 h4 h5 h6 h0
  all_goals try exact absurd h (by decide)
  · have hsf := root_setup_sync_filter env cpu mem
    rcases hR : root_setup env cpu mem with ⟨rok, revs, alive⟩
    rw [hR] at hsf h
    exact (release_and_wait_sync env uid rok alive revs hsf h).trans (by decide)
  · exact (release_and_wait_sync env uid true false [] (by decide) h).trans
      (by decide)

/-- C9 witness: a root launch with every step succeeding writes the release
byte, and its sync projection is as stated. -/
theorem proc_writes_ordered_witness :
    Event.writeReleaseByte ∈ (run_in_container envAllOk 0 none none).2 ∧
    (run_in_container envAllOk 0 none none).2.filter isSyncEvent =
      [Event.cloneChild, Event.writeProcFile "uid_map",
       Event.writeProcFile "setgroups", Event.writeProcFile "gid_map",
       Event.writeReleaseByte] :=
  ⟨by decide, proc_writes_ordered envAllOk 0 none none (by decide)⟩

end ContainerBlog
